import Mathlib

/-!
Shallow embedding of the rustyboi Game Boy emulator core
(src/cpu/timers.rs, src/machine.rs, src/pixel_fetcher/background_or_window.rs).

Machine integers are modelled as `Nat` with explicit `% 2^w` where the source
uses wrapping arithmetic (`Wrapping<u8>`, `Wrapping<u16>`).  Memory arrays are
modelled as functions `Nat → Nat` holding byte values.  Fallible code (the
`panic!` / `unreachable!` branches) returns `Option`.

Modules of the repository that are not in `src/` (ppu, memory, inputs,
interrupts, pixel_fetcher/mod) are modelled from the spec where the claims
need them; each such definition carries a `Modelled from the spec:` comment.
-/

/-- Modelled from the spec: the `utils::is_bit_set` helper (utils module not in
`src/`): tests whether bit `bit` of byte `v` is set. -/
def utils.is_bit_set (v : Nat) (bit : Nat) : Bool :=
  (v >>> bit) &&& 1 == 1

/-- Modelled from the spec: the two tile-data addressing modes (signed vs
unsigned tile-id-to-address mapping); the `ppu` module defining this enum is
not in `src/`. -/
inductive AddressingMode where
  | Unsigned
  | Signed
  deriving DecidableEq, Repr

/-- From src/pixel_fetcher (states of the background/window fetcher pipeline,
as matched on in `BackgroundOrWindowFetcher::tick`). -/
inductive FetcherState where
  | GetTileDelay
  | GetTile
  | GetTileDataLowDelay
  | GetTileDataLow
  | GetTileDataHighDelay
  | GetTileDataHigh
  | PushRow
  deriving DecidableEq, Repr

/-- From src/pixel_fetcher: one pixel FIFO entry, a 2-bit color index. -/
structure FIFOItem where
  color : Nat
  deriving DecidableEq, Repr

/-- From src/ppu (module not in `src/`; fields modelled from the spec and from
their uses in `machine.rs` and `background_or_window.rs`): VRAM, the two
working-RAM banks, the LCD-control register, the current scanline `ly`, the
PPU-side scroll registers, and the per-tile-map-cell addressing-mode memos. -/
structure PPU where
  vram : Nat → Nat
  wram0 : Nat → Nat
  wram1 : Nat → Nat
  lcd_control : Nat
  ly : Nat
  scx : Nat
  scy : Nat
  tile_map0_last_addressing_modes : Nat → AddressingMode
  tile_map1_last_addressing_modes : Nat → AddressingMode

/-- From src/ppu, modelled from the spec: `TILE_MAP_HORIZONTAL_TILE_COUNT`
(a tile map is 32 cells wide). -/
def TILE_MAP_HORIZONTAL_TILE_COUNT : Nat := 32

/-- Modelled from the spec: the LCD-control bit selecting which background
tile-map base address is used (constant defined in the missing `ppu` module). -/
def LCDC_BACKGROUND_TILE_MAP_AREA_BIT : Nat := 3

/-- Modelled from the spec: the LCD-control bit selecting the tile-data
addressing mode (unsigned vs signed), used by `PPU::get_addressing_mode`. -/
def LCDC_TILE_DATA_AREA_BIT : Nat := 4

/-- Modelled from the spec: `PPU::get_addressing_mode` derives the current
addressing mode from the LCD-control tile-data-area bit. -/
def PPU.get_addressing_mode (ppu : PPU) : AddressingMode :=
  if utils.is_bit_set ppu.lcd_control LCDC_TILE_DATA_AREA_BIT then
    AddressingMode.Unsigned
  else
    AddressingMode.Signed

/-- Modelled from the spec: `PPU::read_ly` (on the PPU itself) returns the
current scanline register. -/
def PPU.read_ly (ppu : PPU) : Nat := ppu.ly

/-- From src/cpu/timers.rs: the `Timers` struct.  `divide_register`,
`timer_counter`, `timer_modulo`, `timer_control` are wrapping `u8`;
`divide_register_dots` and `timer_counter_dots` are `u16` sub-dot
accumulators; `divide_register_to_be_reset` defers a divider reset to the end
of the current `step_dots` call. -/
structure Timers where
  divide_register : Nat
  divide_register_dots : Nat
  divide_register_to_be_reset : Bool
  timer_counter : Nat
  timer_counter_dots : Nat
  timer_modulo : Nat
  timer_control : Nat
  deriving DecidableEq, Repr

/-- From src/cpu/timers.rs: `Timers::new()`. -/
def Timers.new : Timers where
  divide_register := 0
  divide_register_to_be_reset := false
  divide_register_dots := 0
  timer_counter := 0
  timer_counter_dots := 0
  timer_modulo := 0
  timer_control := 0

/-- From src/cpu/interrupts.rs (module not in `src/`): interrupt-enable and
interrupt-flag masks.  Modelled from the spec: 5-bit enable mask, 5-bit flag
mask. -/
structure Interrupts where
  interrupt_flag : Nat
  interrupt_enable : Nat
  deriving DecidableEq, Repr

/-- Modelled from the spec: `request_interrupt(source_bit)` sets the
corresponding bit in the interrupt-flag mask; idempotent if already set. -/
def Interrupts.request_interrupt (i : Interrupts) (interrupt_bit : Nat) : Interrupts :=
  { i with interrupt_flag := i.interrupt_flag ||| (1 <<< interrupt_bit) }

/-- Modelled from the spec: `TIMER_INTERRUPT_BIT` from the missing interrupts
module; the spec lists the 5 sources in order VBlank, LCD-status, Timer,
Serial, Joypad, so the timer source is bit 2. -/
def TIMER_INTERRUPT_BIT : Nat := 2

/-- From src/memory.rs (module not in `src/`): boot ROM, the two cartridge ROM
banks and high RAM.  Modelled from the spec as flat byte arrays read at the
rebased addresses the bus dispatcher passes in. -/
structure Memory where
  boot_rom : Nat → Nat
  bank00 : Nat → Nat
  bank01 : Nat → Nat
  hram : Nat → Nat

/-- Modelled from the spec: boot-ROM storage read (read-only overlay). -/
def Memory.read_boot_rom (mem : Memory) (address : Nat) : Nat :=
  mem.boot_rom address

/-- Modelled from the spec: cartridge ROM bank 0 read. -/
def Memory.read_bank_00 (mem : Memory) (address : Nat) : Nat :=
  mem.bank00 address

/-- Modelled from the spec: cartridge ROM bank 1 read (address pre-rebased by
the dispatcher). -/
def Memory.read_bank_01 (mem : Memory) (address : Nat) : Nat :=
  mem.bank01 address

/-- Modelled from the spec: high-RAM read (address pre-rebased). -/
def Memory.read_hram (mem : Memory) (address : Nat) : Nat :=
  mem.hram address

/-- Modelled from the spec: high-RAM write (address pre-rebased). -/
def Memory.write_hram (mem : Memory) (address value : Nat) : Memory :=
  { mem with hram := fun a => if a = address then value % 256 else mem.hram a }

/-- From src/cpu (module not in `src/`): the CPU aggregate, restricted to the
sub-components the modelled code reaches (`cpu.memory`, `cpu.interrupts`,
`cpu.timers`). -/
structure CPU where
  memory : Memory
  interrupts : Interrupts
  timers : Timers

/-- From src/machine.rs: the `Machine` aggregate.  `inputs` is modelled from
the spec as a stored joypad register byte; the PPU is the structure above. -/
structure Machine where
  fix_ly_for_gb_doctor : Bool
  t_cycle_count : Nat
  inputs : Nat
  cpu : CPU
  ppu : PPU
  external_ram : Nat → Nat
  bgp : Nat
  dmg_boot_rom : Nat
  nr11 : Nat
  nr12 : Nat
  nr13 : Nat
  nr14 : Nat
  nr50 : Nat
  nr51 : Nat
  nr52 : Nat
  sb : Nat
  sc : Nat
  scx : Nat
  scy : Nat

/-- Modelled from the spec: `PPU::new()` zero-initializes all PPU state. -/
def PPU.new : PPU where
  vram := fun _ => 0
  wram0 := fun _ => 0
  wram1 := fun _ => 0
  lcd_control := 0
  ly := 0
  scx := 0
  scy := 0
  tile_map0_last_addressing_modes := fun _ => AddressingMode.Signed
  tile_map1_last_addressing_modes := fun _ => AddressingMode.Signed

/-- Modelled from the spec: zero-initialized memory component. -/
def Memory.new : Memory where
  boot_rom := fun _ => 0
  bank00 := fun _ => 0
  bank01 := fun _ => 0
  hram := fun _ => 0

/-- Modelled from the spec: zero-initialized CPU component (only the parts the
modelled code reaches). -/
def CPU.new : CPU where
  memory := Memory.new
  interrupts := { interrupt_flag := 0, interrupt_enable := 0 }
  timers := Timers.new

/-- From src/machine.rs: `Machine::new(fix_ly)`; all registers created
zero-initialized. -/
def Machine.new (fix_ly : Bool) : Machine where
  fix_ly_for_gb_doctor := fix_ly
  t_cycle_count := 0
  dmg_boot_rom := 0
  inputs := 0
  cpu := CPU.new
  ppu := PPU.new
  bgp := 0
  external_ram := fun _ => 0
  nr11 := 0
  nr12 := 0
  nr13 := 0
  nr14 := 0
  nr50 := 0
  nr51 := 0
  nr52 := 0
  sb := 0
  sc := 0
  scx := 0
  scy := 0

/-- From src/machine.rs: `Machine::is_dmg_boot_rom_on`. -/
def Machine.is_dmg_boot_rom_on (m : Machine) : Bool :=
  m.dmg_boot_rom == 0

/-- From src/machine.rs: `Machine::request_interrupt` forwards to the
interrupt controller. -/
def Machine.request_interrupt (m : Machine) (interrupt_bit : Nat) : Machine :=
  { m with cpu := { m.cpu with
      interrupts := m.cpu.interrupts.request_interrupt interrupt_bit } }

/-- Helper: replace the timers sub-structure of a machine (the Rust code
mutates `machine.cpu.timers` in place). -/
def Machine.setTimers (m : Machine) (t : Timers) : Machine :=
  { m with cpu := { m.cpu with timers := t } }

/-- From src/cpu/timers.rs: `get_timer_counter_threshold`.  The `_ =>
unreachable!()` arm cannot fire because the scrutinee is masked with `0x3`;
the Lean match merges it into the `0b11` case. -/
def get_timer_counter_threshold (machine : Machine) : Nat :=
  match machine.cpu.timers.timer_control &&& 0x3 with
  | 0 => 1024
  | 1 => 16
  | 2 => 64
  | _ => 256

/-- From src/cpu/timers.rs: `Timers::step_one_dot`.  The `u16` sub-dot
accumulators and the wrapping-`u8` registers keep their source widths via
explicit `%`. -/
def Timers.step_one_dot (machine : Machine) : Machine :=
  let t0 := machine.cpu.timers
  let t1 := { t0 with divide_register_dots := (t0.divide_register_dots + 1) % 65536 }
  let t2 :=
    if t1.divide_register_dots = 256 then
      { t1 with divide_register_dots := 0,
                divide_register := (t1.divide_register + 1) % 256 }
    else t1
  let machine := machine.setTimers t2
  if machine.cpu.timers.timer_control &&& 0b100 ≠ 0 then
    let t3 := machine.cpu.timers
    let t4 := { t3 with timer_counter_dots := (t3.timer_counter_dots + 1) % 65536 }
    let machine := machine.setTimers t4
    if machine.cpu.timers.timer_counter_dots = get_timer_counter_threshold machine then
      let t5 := machine.cpu.timers
      let t6 := { t5 with timer_counter_dots := 0,
                          timer_counter := (t5.timer_counter + 1) % 256 }
      let machine := machine.setTimers t6
      if machine.cpu.timers.timer_counter = 0 then
        let t7 := machine.cpu.timers
        let machine := machine.setTimers { t7 with timer_counter := t7.timer_modulo }
        machine.request_interrupt TIMER_INTERRUPT_BIT
      else machine
    else machine
  else machine

/-- The `for _ in 0..dots` loop body of `Timers::step_dots`: apply
`step_one_dot` `n` times, first dot first. -/
def Timers.stepLoop (machine : Machine) : Nat → Machine
  | 0 => machine
  | n + 1 => Timers.stepLoop (Timers.step_one_dot machine) n

/-- From src/cpu/timers.rs: `Timers::step_dots`: run `dots` per-dot ticks,
then apply the deferred divider reset if one is pending (clearing the flag and
zeroing the divider register). -/
def Timers.step_dots (machine : Machine) (dots : Nat) : Machine :=
  let machine := Timers.stepLoop machine dots
  if machine.cpu.timers.divide_register_to_be_reset then
    let t := machine.cpu.timers
    machine.setTimers { t with divide_register_to_be_reset := false,
                               divide_register := 0 }
  else machine

/-- From src/cpu/timers.rs: the four timer register addresses. -/
def DIVIDE_REGISTER_ADDRESS : Nat := 0xFF04

/-- From src/cpu/timers.rs: timer counter address. -/
def TIMER_COUNTER_ADDRESS : Nat := 0xFF05

/-- From src/cpu/timers.rs: timer modulo address. -/
def TIMER_MODULO_ADDRESS : Nat := 0xFF06

/-- From src/cpu/timers.rs: timer control address. -/
def TIMER_CONTROL_ADDRESS : Nat := 0xFF07

/-- From src/cpu/timers.rs: `Timers::read_u8`; the catch-all arm is
`unreachable!()`, modelled as `none`. -/
def Timers.read_u8 (t : Timers) (address : Nat) : Option Nat :=
  if address = DIVIDE_REGISTER_ADDRESS then some t.divide_register
  else if address = TIMER_COUNTER_ADDRESS then some t.timer_counter
  else if address = TIMER_MODULO_ADDRESS then some t.timer_modulo
  else if address = TIMER_CONTROL_ADDRESS then some t.timer_control
  else none

/-- From src/cpu/timers.rs: `Timers::write_u8`.  A write to the divider
address only marks the deferred-reset flag; the catch-all arm is
`unreachable!()`, modelled as `none`. -/
def Timers.write_u8 (t : Timers) (address value : Nat) : Option Timers :=
  if address = DIVIDE_REGISTER_ADDRESS then
    some { t with divide_register_to_be_reset := true }
  else if address = TIMER_COUNTER_ADDRESS then some { t with timer_counter := value % 256 }
  else if address = TIMER_MODULO_ADDRESS then some { t with timer_modulo := value % 256 }
  else if address = TIMER_CONTROL_ADDRESS then some { t with timer_control := value % 256 }
  else none

/-- Modelled from the spec: `PPU::read_vram` (address pre-rebased by the
dispatcher). -/
def PPU.read_vram (ppu : PPU) (address : Nat) : Nat := ppu.vram address

/-- Modelled from the spec: `PPU::write_vram`. -/
def PPU.write_vram (ppu : PPU) (address value : Nat) : PPU :=
  { ppu with vram := fun a => if a = address then value % 256 else ppu.vram a }

/-- Modelled from the spec: `PPU::read_wram_0` (working-RAM bank 0, owned by
the PPU in this design; address pre-rebased). -/
def PPU.read_wram_0 (ppu : PPU) (address : Nat) : Nat := ppu.wram0 address

/-- Modelled from the spec: `PPU::read_wram_1`. -/
def PPU.read_wram_1 (ppu : PPU) (address : Nat) : Nat := ppu.wram1 address

/-- Modelled from the spec: `PPU::write_wram_0`. -/
def PPU.write_wram_0 (ppu : PPU) (address value : Nat) : PPU :=
  { ppu with wram0 := fun a => if a = address then value % 256 else ppu.wram0 a }

/-- Modelled from the spec: `PPU::write_wram_1`. -/
def PPU.write_wram_1 (ppu : PPU) (address value : Nat) : PPU :=
  { ppu with wram1 := fun a => if a = address then value % 256 else ppu.wram1 a }

/-- Modelled from the spec: `PPU::read_lcdc`. -/
def PPU.read_lcdc (ppu : PPU) : Nat := ppu.lcd_control

/-- Modelled from the spec: `PPU::write_lcdc` stores the LCD-control register
(addressing-mode derivations are recomputed on demand from `lcd_control` in
this model, so no extra state changes here). -/
def PPU.write_lcdc (ppu : PPU) (value : Nat) : PPU :=
  { ppu with lcd_control := value % 256 }

/-- Modelled from the spec: `PPU::read_ly(machine)` as dispatched at 0xFF44:
when the `fix_ly_for_gb_doctor` debug switch is on, a fixed value (0x90)
replaces the computed scanline. -/
def PPU.read_ly_via_machine (m : Machine) : Nat :=
  if m.fix_ly_for_gb_doctor then 0x90 else m.ppu.ly

/-- Modelled from the spec: the joypad input register read (delegated; stored
byte in this model). -/
def Machine.read_inputs (m : Machine) : Nat := m.inputs

/-- From src/machine.rs: `Machine::read_u8`, the bus dispatcher's read path.
The boot-ROM overlay masks addresses `<= 0xFF` while active; the echo region
0xE000–0xFDFF recursively dispatches to `address - 0x2000`; the catch-all
`panic!` arm is modelled as `none`. -/
def Machine.read_u8 (m : Machine) (address : Nat) : Option Nat :=
  if m.is_dmg_boot_rom_on ∧ address ≤ 0xFF then
    some (m.cpu.memory.read_boot_rom address)
  else if address ≤ 0x3FFF then some (m.cpu.memory.read_bank_00 address)
  else if address ≤ 0x7FFF then some (m.cpu.memory.read_bank_01 (address - 0x4000))
  else if address ≤ 0x9FFF then some (m.ppu.read_vram (address - 0x8000))
  else if address ≤ 0xBFFF then some (m.external_ram (address - 0xA000))
  else if address ≤ 0xCFFF then some (m.ppu.read_wram_0 (address - 0xC000))
  else if h1 : address ≤ 0xDFFF then some (m.ppu.read_wram_1 (address - 0xD000))
  else if h2 : address ≤ 0xFDFF then m.read_u8 (address - 0x2000)
  else if address = 0xFF00 then some m.read_inputs
  else if address = 0xFF01 then some m.sb
  else if address = 0xFF02 then some m.sc
  else if 0xFF04 ≤ address ∧ address ≤ 0xFF07 then m.cpu.timers.read_u8 address
  else if address = 0xFF0F then some m.cpu.interrupts.interrupt_flag
  else if address = 0xFF11 then some m.nr11
  else if address = 0xFF12 then some m.nr12
  else if address = 0xFF13 then some m.nr13
  else if address = 0xFF14 then some m.nr14
  else if address = 0xFF24 then some m.nr50
  else if address = 0xFF25 then some m.nr51
  else if address = 0xFF26 then some m.nr52
  else if address = 0xFF40 then some m.ppu.read_lcdc
  else if address = 0xFF42 then some m.scy
  else if address = 0xFF43 then some m.scx
  else if address = 0xFF44 then some (PPU.read_ly_via_machine m)
  else if address = 0xFF47 then some m.bgp
  else if address = 0xFF50 then some m.dmg_boot_rom
  else if 0xFF80 ≤ address ∧ address ≤ 0xFFFE then
    some (m.cpu.memory.read_hram (address - 0xFF80))
  else if address = 0xFFFF then some m.cpu.interrupts.interrupt_enable
  else none
termination_by address
decreasing_by omega

/-- Modelled from the spec: cartridge ROM bank 0 "writes" are
cartridge-controller-specific and delegated opaquely to an external
bank-control collaborator; no state modelled here changes. -/
def Memory.write_bank_00 (m : Machine) (_address _value : Nat) : Machine := m

/-- Modelled from the spec: cartridge ROM bank 1 writes, delegated opaquely
like bank 0. -/
def Memory.write_bank_01 (m : Machine) (_address _value : Nat) : Machine := m

/-- Modelled from the spec: the joypad input register write (stored byte). -/
def Machine.write_inputs (m : Machine) (value : Nat) : Machine :=
  { m with inputs := value % 256 }

/-- From src/machine.rs: `Machine::write_u8`, the bus dispatcher's write path.
A write at `<= 0xFF` while the boot overlay is active is a `panic!`
(modelled as `none`), as is the catch-all unhandled-address arm — in
particular the whole echo region 0xE000–0xFDFF, which has no write arm. -/
def Machine.write_u8 (m : Machine) (address value : Nat) : Option Machine :=
  if m.is_dmg_boot_rom_on ∧ address ≤ 0xFF then none
  else if address ≤ 0x3FFF then some (Memory.write_bank_00 m address value)
  else if address ≤ 0x7FFF then some (Memory.write_bank_01 m (address - 0x4000) value)
  else if address ≤ 0x9FFF then
    some { m with ppu := m.ppu.write_vram (address - 0x8000) value }
  else if address ≤ 0xBFFF then
    some { m with external_ram :=
      fun a => if a = address - 0xA000 then value % 256 else m.external_ram a }
  else if address ≤ 0xCFFF then
    some { m with ppu := m.ppu.write_wram_0 (address - 0xC000) value }
  else if address ≤ 0xDFFF then
    some { m with ppu := m.ppu.write_wram_1 (address - 0xD000) value }
  else if address = 0xFF00 then some (m.write_inputs value)
  else if address = 0xFF01 then some { m with sb := value % 256 }
  else if address = 0xFF02 then some { m with sc := value % 256 }
  else if 0xFF04 ≤ address ∧ address ≤ 0xFF07 then
    (m.cpu.timers.write_u8 address value).map m.setTimers
  else if address = 0xFF0F then
    some { m with cpu := { m.cpu with
      interrupts := { m.cpu.interrupts with interrupt_flag := value % 256 } } }
  else if address = 0xFF11 then some { m with nr11 := value % 256 }
  else if address = 0xFF12 then some { m with nr12 := value % 256 }
  else if address = 0xFF13 then some { m with nr13 := value % 256 }
  else if address = 0xFF14 then some { m with nr14 := value % 256 }
  else if address = 0xFF24 then some { m with nr50 := value % 256 }
  else if address = 0xFF25 then some { m with nr51 := value % 256 }
  else if address = 0xFF26 then some { m with nr52 := value % 256 }
  else if address = 0xFF40 then some { m with ppu := m.ppu.write_lcdc value }
  else if address = 0xFF42 then some { m with scy := value % 256 }
  else if address = 0xFF43 then some { m with scx := value % 256 }
  else if address = 0xFF47 then some { m with bgp := value % 256 }
  else if address = 0xFF50 then some { m with dmg_boot_rom := value % 256 }
  else if 0xFF80 ≤ address ∧ address ≤ 0xFFFE then
    some { m with cpu := { m.cpu with
      memory := m.cpu.memory.write_hram (address - 0xFF80) value } }
  else if address = 0xFFFF then
    some { m with cpu := { m.cpu with
      interrupts := { m.cpu.interrupts with interrupt_enable := value % 256 } } }
  else none

/-- Modelled from the spec: `Fetcher::read_tile_row` from pixel_fetcher/mod
(not in `src/`): resolves the tile ID to a VRAM tile-data address under the
given addressing mode (unsigned: `tile_id * 16`; signed: tile IDs below 128
map above base 0x1000, IDs 128..255 are negative offsets from it), reads the
low or high bit-plane byte of the tile's row `row % 8`, and ORs each pixel's
bit (pixel `i` comes from bit `7 - i`) into the row buffer at plane position
0 (low) or 1 (high). -/
def Fetcher.read_tile_row (vram : Nat → Nat) (mode : AddressingMode)
    (row : Nat) (tile_id : Nat) (is_high : Bool)
    (tile_row_data : Fin 8 → Nat) : Fin 8 → Nat :=
  let tile_address :=
    match mode with
    | AddressingMode.Unsigned => tile_id * 16
    | AddressingMode.Signed =>
        if tile_id < 128 then 0x1000 + tile_id * 16 else tile_id * 16
  let byte := vram (tile_address + (row % 8) * 2 + (if is_high then 1 else 0))
  fun i =>
    tile_row_data i ||| (((byte >>> (7 - i.val)) &&& 1) <<< (if is_high then 1 else 0))

/-- From src/pixel_fetcher/background_or_window.rs: the
`BackgroundOrWindowFetcher` struct.  The FIFO (`VecDeque<FIFOItem>`) is a
list, front first; the 8-byte row buffer is a function on `Fin 8`. -/
structure BackgroundOrWindowFetcher where
  state : FetcherState
  fifo : List FIFOItem
  row_of_pixel_within_tile : Nat
  tile_id : Nat
  vram_tile_column : Nat
  tile_row_data : Fin 8 → Nat

namespace BackgroundOrWindowFetcher

/-- From src/pixel_fetcher/background_or_window.rs: `new()`. -/
def new : BackgroundOrWindowFetcher where
  state := FetcherState.GetTileDelay
  fifo := []
  row_of_pixel_within_tile := 0
  tile_id := 0
  vram_tile_column := 0
  tile_row_data := fun _ => 0

/-- From src/pixel_fetcher/background_or_window.rs: `prepare_for_new_frame`. -/
def prepare_for_new_frame (f : BackgroundOrWindowFetcher) : BackgroundOrWindowFetcher :=
  { f with state := FetcherState.GetTileDelay
           fifo := []
           row_of_pixel_within_tile := 0
           vram_tile_column := 0
           tile_row_data := fun _ => 0 }

/-- From src/pixel_fetcher/background_or_window.rs: `prepare_for_new_row`. -/
def prepare_for_new_row (f : BackgroundOrWindowFetcher) : BackgroundOrWindowFetcher :=
  { f with state := FetcherState.GetTileDelay
           fifo := []
           row_of_pixel_within_tile := 0
           vram_tile_column := 0
           tile_row_data := fun _ => 0 }

/-- From src/pixel_fetcher/background_or_window.rs: `tick`, one dot of the
fetcher state machine.  The `Wrapping<u8>` arithmetic of `GetTile` is the
explicit `% 256`; `tick` returns the updated fetcher together with the
updated PPU (the source mutates `ppu` through `&mut`). -/
def tick (f : BackgroundOrWindowFetcher) (ppu : PPU) :
    BackgroundOrWindowFetcher × PPU :=
  match f.state with
  | FetcherState.GetTileDelay => ({ f with state := FetcherState.GetTile }, ppu)
  | FetcherState.GetTile =>
      let vram_pixel_row := (ppu.read_ly + ppu.scy) % 256
      let vram_pixel_col := (f.vram_tile_column * 8 + ppu.scx) % 256
      let tile_row := vram_pixel_row / 8
      let tile_col := vram_pixel_col / 8
      let tile_index_in_its_tile_map :=
        tile_row * TILE_MAP_HORIZONTAL_TILE_COUNT + tile_col
      let resAndPpu :=
        if utils.is_bit_set ppu.lcd_control LCDC_BACKGROUND_TILE_MAP_AREA_BIT then
          ((0x1C00 : Nat),
           { ppu with tile_map0_last_addressing_modes :=
              fun j => if j = tile_index_in_its_tile_map then ppu.get_addressing_mode
                       else ppu.tile_map0_last_addressing_modes j })
        else
          ((0x1800 : Nat),
           { ppu with tile_map1_last_addressing_modes :=
              fun j => if j = tile_index_in_its_tile_map then ppu.get_addressing_mode
                       else ppu.tile_map1_last_addressing_modes j })
      let vram_base_address := resAndPpu.1
      let ppu := resAndPpu.2
      let row_address := vram_base_address + (tile_row <<< 5) + tile_col
      ({ f with tile_id := ppu.vram row_address
                state := FetcherState.GetTileDataLowDelay }, ppu)
  | FetcherState.GetTileDataLowDelay =>
      ({ f with state := FetcherState.GetTileDataLow }, ppu)
  | FetcherState.GetTileDataLow =>
      let ly := ppu.read_ly
      ({ f with tile_row_data :=
                  Fetcher.read_tile_row ppu.vram ppu.get_addressing_mode
                    ((ly + ppu.scy) % 256) f.tile_id false f.tile_row_data
                state := FetcherState.GetTileDataHighDelay }, ppu)
  | FetcherState.GetTileDataHighDelay =>
      ({ f with state := FetcherState.GetTileDataHigh }, ppu)
  | FetcherState.GetTileDataHigh =>
      let ly := ppu.read_ly
      ({ f with tile_row_data :=
                  Fetcher.read_tile_row ppu.vram ppu.get_addressing_mode
                    ((ly + ppu.scy) % 256) f.tile_id true f.tile_row_data
                state := FetcherState.PushRow }, ppu)
  | FetcherState.PushRow =>
      if f.fifo.length = 0 then
        ({ f with fifo := f.fifo ++ List.ofFn (fun i : Fin 8 => ⟨f.tile_row_data i⟩)
                  vram_tile_column := (f.vram_tile_column + 1) % 256
                  tile_row_data := fun _ => 0
                  state := FetcherState.GetTileDelay }, ppu)
      else (f, ppu)

/-- Iterate `tick` `n` times (n consecutive dots of the fetcher). -/
def tickN : Nat → BackgroundOrWindowFetcher × PPU → BackgroundOrWindowFetcher × PPU
  | 0, p => p
  | n + 1, p => tickN n (tick p.1 p.2)

end BackgroundOrWindowFetcher

/-- Concrete machine used to exhibit the pending-divider-reset timing
difference: the deferred-reset flag is set and the divider sub-dot
accumulator is 4 dots away from the 256-dot boundary. -/
def pendingResetMachine : Machine :=
  { Machine.new false with cpu := { (Machine.new false).cpu with timers :=
      { Timers.new with divide_register_to_be_reset := true
                        divide_register_dots := 252 } } }

/-- Concrete machine whose divider sub-dot accumulator is mid-count (7 dots),
used to observe what a divider write followed by stepping does to the
accumulator. -/
def dividerDotsMachine : Machine :=
  { Machine.new false with cpu := { (Machine.new false).cpu with timers :=
      { Timers.new with divide_register_dots := 7 } } }

/-- Concrete machine for the counter-overflow scenario of the spec: counter
enabled with threshold 16 dots (control = 0b101), modulo = 0xAB,
counter = 0xFF, counter sub-dot accumulator 0. -/
def overflowTimersMachine : Machine :=
  { Machine.new false with cpu := { (Machine.new false).cpu with timers :=
      { Timers.new with timer_control := 0b101
                        timer_modulo := 0xAB
                        timer_counter := 0xFF } } }

/-- Concrete machine with the boot overlay active and distinguishable boot-ROM
(0xAA) vs cartridge-ROM (0xBB) contents. -/
def bootOverlayMachine : Machine :=
  { Machine.new false with cpu := { (Machine.new false).cpu with memory :=
      { Memory.new with boot_rom := fun _ => 0xAA
                        bank00 := fun _ => 0xBB } } }

/-- Concrete machine for the threshold-16 witness of the threshold-selection
property: counter enabled, control low bits 01. -/
def thresholdWitnessMachine : Machine :=
  (Machine.new false).setTimers { Timers.new with timer_control := 0b101 }

/-- The tile-map row address the fetcher computes in `GetTile` (stated over
the model's own scroll/scanline arithmetic; used to express what one fetch
cycle produces). -/
def bgwFetchRowAddress (f : BackgroundOrWindowFetcher) (ppu : PPU) : Nat :=
  (if utils.is_bit_set ppu.lcd_control LCDC_BACKGROUND_TILE_MAP_AREA_BIT
   then 0x1C00 else 0x1800)
  + ((((ppu.read_ly + ppu.scy) % 256) / 8) <<< 5)
  + (((f.vram_tile_column * 8 + ppu.scx) % 256) / 8)

/-- The raw tile-ID byte the fetcher loads in `GetTile`. -/
def bgwFetchedTileId (f : BackgroundOrWindowFetcher) (ppu : PPU) : Nat :=
  ppu.vram (bgwFetchRowAddress f ppu)

/-- The low (`is_high = false`) or high bit-plane byte of the addressed tile
row, resolved under the currently configured addressing mode. -/
def bgwTileDataPlaneByte (f : BackgroundOrWindowFetcher) (ppu : PPU)
    (is_high : Bool) : Nat :=
  let tile_id := bgwFetchedTileId f ppu
  let tile_address :=
    match ppu.get_addressing_mode with
    | AddressingMode.Unsigned => tile_id * 16
    | AddressingMode.Signed =>
        if tile_id < 128 then 0x1000 + tile_id * 16 else tile_id * 16
  ppu.vram (tile_address + (((ppu.read_ly + ppu.scy) % 256) % 8) * 2
            + (if is_high then 1 else 0))

/-- The 2-bit color index of pixel `i` of the fetched tile row: bit `7 - i`
of the low plane in bit position 0, of the high plane in bit position 1. -/
def bgwExpectedColor (f : BackgroundOrWindowFetcher) (ppu : PPU) (i : Fin 8) : Nat :=
  ((bgwTileDataPlaneByte f ppu false >>> (7 - i.val)) &&& 1)
  ||| (((bgwTileDataPlaneByte f ppu true >>> (7 - i.val)) &&& 1) <<< 1)

lemma read_u8_boot (m : Machine) (a : Nat)
    (hon : m.is_dmg_boot_rom_on = true) (h : a ≤ 0xFF) :
    m.read_u8 a = some (m.cpu.memory.boot_rom a) := by
  rw [Machine.read_u8, if_pos ⟨hon, h⟩]
  rfl

lemma read_u8_bank00 (m : Machine) (a : Nat)
    (hoff : m.is_dmg_boot_rom_on = false) (h : a ≤ 0x3FFF) :
    m.read_u8 a = some (m.cpu.memory.bank00 a) := by
  rw [Machine.read_u8, if_neg (fun hh => by rw [hoff] at hh; exact absurd hh.1 (by simp)),
      if_pos h]
  rfl

lemma read_u8_wram0 (m : Machine) (a : Nat)
    (h1 : 0xC000 ≤ a) (h2 : a ≤ 0xCFFF) :
    m.read_u8 a = some (m.ppu.wram0 (a - 0xC000)) := by
  rw [Machine.read_u8, if_neg (fun hh => absurd hh.2 (by omega)),
      if_neg (by omega), if_neg (by omega), if_neg (by omega), if_neg (by omega),
      if_pos h2]
  rfl

lemma read_u8_wram1 (m : Machine) (a : Nat)
    (h1 : 0xD000 ≤ a) (h2 : a ≤ 0xDFFF) :
    m.read_u8 a = some (m.ppu.wram1 (a - 0xD000)) := by
  rw [Machine.read_u8, if_neg (fun hh => absurd hh.2 (by omega)),
      if_neg (by omega), if_neg (by omega), if_neg (by omega), if_neg (by omega),
      if_neg (by omega), dif_pos (by omega)]
  rfl

lemma read_u8_echo (m : Machine) (a : Nat)
    (h1 : 0xE000 ≤ a) (h2 : a ≤ 0xFDFF) :
    m.read_u8 a = m.read_u8 (a - 0x2000) := by
  rw [Machine.read_u8, if_neg (fun hh => absurd hh.2 (by omega)),
      if_neg (by omega), if_neg (by omega), if_neg (by omega), if_neg (by omega),
      if_neg (by omega), dif_neg (by omega), dif_pos (by omega)]

lemma write_u8_wram0 (m : Machine) (a v : Nat)
    (h1 : 0xC000 ≤ a) (h2 : a ≤ 0xCFFF) :
    m.write_u8 a v = some { m with ppu := m.ppu.write_wram_0 (a - 0xC000) v } := by
  rw [Machine.write_u8, if_neg (fun hh => absurd hh.2 (by omega)),
      if_neg (by omega), if_neg (by omega), if_neg (by omega), if_neg (by omega),
      if_pos h2]

lemma write_u8_wram1 (m : Machine) (a v : Nat)
    (h1 : 0xD000 ≤ a) (h2 : a ≤ 0xDFFF) :
    m.write_u8 a v = some { m with ppu := m.ppu.write_wram_1 (a - 0xD000) v } := by
  rw [Machine.write_u8, if_neg (fun hh => absurd hh.2 (by omega)),
      if_neg (by omega), if_neg (by omega), if_neg (by omega), if_neg (by omega),
      if_neg (by omega), if_pos h2]

lemma write_u8_echo_none (m : Machine) (a v : Nat)
    (h1 : 0xE000 ≤ a) (h2 : a ≤ 0xFDFF) :
    m.write_u8 a v = none := by
  have e00 : ¬ (m.is_dmg_boot_rom_on = true ∧ a ≤ 0xFF) := fun hh => absurd hh.2 (by omega)
  have e01 : ¬ a ≤ 0x3FFF := by omega
  have e02 : ¬ a ≤ 0x7FFF := by omega
  have e03 : ¬ a ≤ 0x9FFF := by omega
  have e04 : ¬ a ≤ 0xBFFF := by omega
  have e05 : ¬ a ≤ 0xCFFF := by omega
  have e06 : ¬ a ≤ 0xDFFF := by omega
  have e07 : ¬ a = 0xFF00 := by omega
  have e08 : ¬ a = 0xFF01 := by omega
  have e09 : ¬ a = 0xFF02 := by omega
  have e10 : ¬ (0xFF04 ≤ a ∧ a ≤ 0xFF07) := by omega
  have e11 : ¬ a = 0xFF0F := by omega
  have e12 : ¬ a = 0xFF11 := by omega
  have e13 : ¬ a = 0xFF12 := by omega
  have e14 : ¬ a = 0xFF13 := by omega
  have e15 : ¬ a = 0xFF14 := by omega
  have e16 : ¬ a = 0xFF24 := by omega
  have e17 : ¬ a = 0xFF25 := by omega
  have e18 : ¬ a = 0xFF26 := by omega
  have e19 : ¬ a = 0xFF40 := by omega
  have e20 : ¬ a = 0xFF42 := by omega
  have e21 : ¬ a = 0xFF43 := by omega
  have e22 : ¬ a = 0xFF47 := by omega
  have e23 : ¬ a = 0xFF50 := by omega
  have e24 : ¬ (0xFF80 ≤ a ∧ a ≤ 0xFFFE) := by omega
  have e25 : ¬ a = 0xFFFF := by omega
  rw [Machine.write_u8, if_neg e00, if_neg e01, if_neg e02, if_neg e03,
      if_neg e04, if_neg e05, if_neg e06, if_neg e07, if_neg e08, if_neg e09,
      if_neg e10, if_neg e11, if_neg e12, if_neg e13, if_neg e14, if_neg e15,
      if_neg e16, if_neg e17, if_neg e18, if_neg e19, if_neg e20, if_neg e21,
      if_neg e22, if_neg e23, if_neg e24, if_neg e25]

lemma write_u8_ff50 (m : Machine) (v : Nat) :
    m.write_u8 0xFF50 v = some { m with dmg_boot_rom := v % 256 } := by
  simp [Machine.write_u8]

lemma write_u8_ff04 (m : Machine) (v : Nat) :
    m.write_u8 0xFF04 v =
      some (m.setTimers { m.cpu.timers with divide_register_to_be_reset := true }) := by
  simp [Machine.write_u8, Timers.write_u8, DIVIDE_REGISTER_ADDRESS,
    TIMER_COUNTER_ADDRESS, TIMER_MODULO_ADDRESS, TIMER_CONTROL_ADDRESS,
    Machine.setTimers]

set_option maxRecDepth 8000 in
/-- C3: with the counter enabled, threshold 16 dots (control low bits 01),
modulo = 0xAB, counter = 0xFF and the counter sub-dot accumulator at 0,
stepping 16 dots overflows the counter from 0xFF, immediately reloads it to
0xAB (not 0x00), and sets the timer bit in the interrupt-flag mask (after 15
dots the counter is still 0xFF). -/
theorem C3_counter_overflow_reload :
    (Timers.step_dots overflowTimersMachine 16).cpu.timers.timer_counter = 0xAB
    ∧ (Timers.step_dots overflowTimersMachine 16).cpu.timers.timer_counter ≠ 0x00
    ∧ (Timers.step_dots overflowTimersMachine 16).cpu.interrupts.interrupt_flag
        &&& (1 <<< TIMER_INTERRUPT_BIT) ≠ 0
    ∧ (Timers.step_dots overflowTimersMachine 15).cpu.timers.timer_counter = 0xFF := by
  refine ⟨by decide, by decide, by decide, by decide⟩

/-- C9: `prepare_for_new_frame` and `prepare_for_new_row` are extensionally
equal: each sets the phase to `GetTileDelay`, empties the FIFO, zeroes the
column cursor and row-within-tile counter, and zeroes the row buffer. -/
theorem C9_prepare_functions_identical (f : BackgroundOrWindowFetcher) :
    f.prepare_for_new_frame = f.prepare_for_new_row
    ∧ f.prepare_for_new_frame.state = FetcherState.GetTileDelay
    ∧ f.prepare_for_new_frame.fifo = []
    ∧ f.prepare_for_new_frame.vram_tile_column = 0
    ∧ f.prepare_for_new_frame.row_of_pixel_within_tile = 0
    ∧ f.prepare_for_new_frame.tile_row_data = (fun _ => 0) :=
  ⟨rfl, rfl, rfl, rfl, rfl, rfl⟩

/-- C10: every write in the echo region 0xE000–0xFDFF reaches the
unhandled-address `panic!` branch of `Machine::write_u8` (modelled as
`none`): the working-RAM echo mirror exists only on the read path. -/
theorem C10_echo_write_fatal (m : Machine) (a v : Nat)
    (h1 : 0xE000 ≤ a) (h2 : a ≤ 0xFDFF) :
    m.write_u8 a v = none :=
  write_u8_echo_none m a v h1 h2

/-- Witness for C10 at the concrete echo address 0xE123. -/
theorem C10_echo_write_fatal_witness :
    (0xE000 : Nat) ≤ 0xE123 ∧ (0xE123 : Nat) ≤ 0xFDFF
    ∧ (Machine.new false).write_u8 0xE123 0x42 = none :=
  ⟨by decide, by decide,
   C10_echo_write_fatal (Machine.new false) 0xE123 0x42 (by decide) (by decide)⟩

/-- C6: writing `v` to a working-RAM address X in 0xC000–0xDDFF and reading
the echoed address X + 0x2000 returns `v` (as a byte). -/
theorem C6_wram_echo_mirror (m : Machine) (X v : Nat)
    (h1 : 0xC000 ≤ X) (h2 : X ≤ 0xDDFF) :
    ∃ m', m.write_u8 X v = some m'
      ∧ m'.read_u8 (X + 0x2000) = some (v % 256) := by
  have hX : X + 0x2000 - 0x2000 = X := by omega
  by_cases hc : X ≤ 0xCFFF
  · refine ⟨_, write_u8_wram0 m X v h1 hc, ?_⟩
    rw [read_u8_echo _ _ (by omega) (by omega), hX, read_u8_wram0 _ _ h1 hc]
    simp [PPU.write_wram_0]
  · refine ⟨_, write_u8_wram1 m X v (by omega) (by omega), ?_⟩
    rw [read_u8_echo _ _ (by omega) (by omega), hX,
        read_u8_wram1 _ _ (by omega) (by omega)]
    simp [PPU.write_wram_1]

/-- Witness for C6 at X = 0xC123, v = 0x2A. -/
theorem C6_wram_echo_mirror_witness :
    (0xC000 : Nat) ≤ 0xC123 ∧ (0xC123 : Nat) ≤ 0xDDFF
    ∧ ∃ m', (Machine.new false).write_u8 0xC123 0x2A = some m'
      ∧ m'.read_u8 (0xC123 + 0x2000) = some (0x2A % 256) :=
  ⟨by decide, by decide,
   C6_wram_echo_mirror (Machine.new false) 0xC123 0x2A (by decide) (by decide)⟩

/-- C5 counterexample: writing the value 0 to 0xFF50 does NOT disable the
boot-ROM overlay: reading 0x0050 afterwards still returns boot-ROM content
(0xAA here), not cartridge-ROM content (0xBB here). -/
theorem C5_counterexample :
    (bootOverlayMachine.write_u8 0xFF50 0).bind (fun m' => m'.read_u8 0x0050)
      = some (bootOverlayMachine.cpu.memory.boot_rom 0x0050)
    ∧ ¬ ((bootOverlayMachine.write_u8 0xFF50 0).bind (fun m' => m'.read_u8 0x0050)
        = some (bootOverlayMachine.cpu.memory.bank00 0x0050)) := by
  rw [write_u8_ff50]
  constructor
  · show ({ bootOverlayMachine with dmg_boot_rom := 0 % 256 }).read_u8 0x0050 = _
    rw [read_u8_boot _ _ (by decide) (by omega)]
  · show ¬ (({ bootOverlayMachine with dmg_boot_rom := 0 % 256 }).read_u8 0x0050 = _)
    rw [read_u8_boot _ _ (by decide) (by omega)]
    simp [bootOverlayMachine, Machine.new, CPU.new, Memory.new]

/-- C5 (amended): writing any NONZERO byte value to 0xFF50 disables the
boot-ROM overlay: afterwards every read in 0x0000–0x00FF returns cartridge
ROM bank-0 content, and the stored latch holds the written (nonzero) value,
so the overlay stays disabled as long as nothing writes 0 back. -/
theorem C5_boot_rom_disable_amended (m : Machine) (v a : Nat)
    (hv : v % 256 ≠ 0) (ha : a ≤ 0xFF) :
    ∃ m', m.write_u8 0xFF50 v = some m'
      ∧ m'.is_dmg_boot_rom_on = false
      ∧ m'.read_u8 a = some (m.cpu.memory.bank00 a)
      ∧ m'.dmg_boot_rom = v % 256 := by
  have hoff : ({ m with dmg_boot_rom := v % 256 } : Machine).is_dmg_boot_rom_on = false := by
    show ((v % 256 : Nat) == 0) = false
    simp [hv]
  refine ⟨_, write_u8_ff50 m v, hoff, ?_, rfl⟩
  rw [read_u8_bank00 _ _ hoff (by omega)]

/-- Witness for the amended C5 at v = 1, a = 0x50. -/
theorem C5_boot_rom_disable_amended_witness :
    (1 : Nat) % 256 ≠ 0 ∧ (0x50 : Nat) ≤ 0xFF
    ∧ ∃ m', bootOverlayMachine.write_u8 0xFF50 1 = some m'
      ∧ m'.is_dmg_boot_rom_on = false
      ∧ m'.read_u8 0x50 = some (bootOverlayMachine.cpu.memory.bank00 0x50)
      ∧ m'.dmg_boot_rom = 1 % 256 :=
  ⟨by decide, by decide,
   C5_boot_rom_disable_amended bootOverlayMachine 1 0x50 (by decide) (by decide)⟩

/-- One dot of stepping never touches the deferred divider-reset flag. -/
lemma step_one_dot_to_be_reset (m : Machine) :
    (Timers.step_one_dot m).cpu.timers.divide_register_to_be_reset
      = m.cpu.timers.divide_register_to_be_reset := by
  simp only [Timers.step_one_dot, Machine.setTimers, Machine.request_interrupt,
    Interrupts.request_interrupt]
  repeat first | rfl | split

/-- The dot loop of `step_dots` never touches the deferred-reset flag. -/
lemma stepLoop_to_be_reset (n : Nat) : ∀ (m : Machine),
    (Timers.stepLoop m n).cpu.timers.divide_register_to_be_reset
      = m.cpu.timers.divide_register_to_be_reset := by
  induction n with
  | zero => intro m; rfl
  | succ k ih =>
      intro m
      rw [Timers.stepLoop, ih, step_one_dot_to_be_reset]

/-- Dot-loop iteration composes additively. -/
lemma stepLoop_add (a : Nat) : ∀ (b : Nat) (m : Machine),
    Timers.stepLoop m (a + b) = Timers.stepLoop (Timers.stepLoop m a) b := by
  induction a with
  | zero => intro b m; rw [Nat.zero_add]; rfl
  | succ k ih =>
      intro b m
      have : k + 1 + b = (k + b) + 1 := by omega
      rw [this, Timers.stepLoop, Timers.stepLoop, ih]

/-- Without a pending divider reset, `step_dots` is just the dot loop. -/
lemma step_dots_of_not_pending (m : Machine) (k : Nat)
    (h : m.cpu.timers.divide_register_to_be_reset = false) :
    Timers.step_dots m k = Timers.stepLoop m k := by
  simp only [Timers.step_dots]
  rw [stepLoop_to_be_reset, h]
  simp

set_option maxRecDepth 8000 in
/-- C1 counterexample: with a pending divider reset (flag set, divider
accumulator at 252), four calls of `step_dots(1)` are NOT equivalent to one
`step_dots(4)`: the first applies the deferred reset after dot 1 (final
divider 1), the second after dot 4 (final divider 0). -/
theorem C1_counterexample :
    ¬ (Timers.step_dots (Timers.step_dots (Timers.step_dots
          (Timers.step_dots pendingResetMachine 1) 1) 1) 1
        = Timers.step_dots pendingResetMachine 4) := by
  intro hEq
  have hA : (Timers.step_dots (Timers.step_dots (Timers.step_dots
      (Timers.step_dots pendingResetMachine 1) 1) 1) 1).cpu.timers.divide_register
      = 1 := by decide
  have hB : (Timers.step_dots pendingResetMachine 4).cpu.timers.divide_register
      = 0 := by decide
  rw [hEq, hB] at hA
  exact absurd hA (by decide)

/-- C1 (amended): for every machine state with NO pending divider reset,
advancing the clock by four calls of `step_dots(1)` equals one call of
`step_dots(4)`: the whole machine state (every timer register, both sub-dot
accumulators, and the interrupt-flag mask) agrees. -/
theorem C1_step_dots_batching_amended (m : Machine)
    (h : m.cpu.timers.divide_register_to_be_reset = false) :
    Timers.step_dots (Timers.step_dots (Timers.step_dots
        (Timers.step_dots m 1) 1) 1) 1
      = Timers.step_dots m 4 := by
  have f1 : (Timers.stepLoop m 1).cpu.timers.divide_register_to_be_reset = false := by
    rw [stepLoop_to_be_reset]; exact h
  have f2 : (Timers.stepLoop m 2).cpu.timers.divide_register_to_be_reset = false := by
    rw [stepLoop_to_be_reset]; exact h
  have f3 : (Timers.stepLoop m 3).cpu.timers.divide_register_to_be_reset = false := by
    rw [stepLoop_to_be_reset]; exact h
  have e2 : Timers.stepLoop (Timers.stepLoop m 1) 1 = Timers.stepLoop m 2 := by
    rw [← stepLoop_add]
  have e3 : Timers.stepLoop (Timers.stepLoop m 2) 1 = Timers.stepLoop m 3 := by
    rw [← stepLoop_add]
  have e4 : Timers.stepLoop (Timers.stepLoop m 3) 1 = Timers.stepLoop m 4 := by
    rw [← stepLoop_add]
  rw [step_dots_of_not_pending m 1 h, step_dots_of_not_pending _ 1 f1, e2,
      step_dots_of_not_pending _ 1 f2, e3, step_dots_of_not_pending _ 1 f3, e4,
      step_dots_of_not_pending m 4 h]

/-- Witness for the amended C1 at the freshly constructed machine. -/
theorem C1_step_dots_batching_amended_witness :
    (Machine.new false).cpu.timers.divide_register_to_be_reset = false
    ∧ Timers.step_dots (Timers.step_dots (Timers.step_dots
        (Timers.step_dots (Machine.new false) 1) 1) 1) 1
      = Timers.step_dots (Machine.new false) 4 :=
  ⟨rfl, C1_step_dots_batching_amended (Machine.new false) rfl⟩

/-- C2 counterexample: writing to the divider address and then stepping one
dot leaves the divider sub-dot accumulator at 8 (its old count 7 plus the
stepped dot), NOT 0, even though the divider register itself is reset to 0:
the end-of-call reset clears only the register, not the accumulator. -/
theorem C2_counterexample :
    (dividerDotsMachine.write_u8 0xFF04 0x42).map
        (fun m' => (Timers.step_dots m' 1).cpu.timers.divide_register_dots)
      = some 8
    ∧ (8 : Nat) ≠ 0
    ∧ (dividerDotsMachine.write_u8 0xFF04 0x42).map
        (fun m' => (Timers.step_dots m' 1).cpu.timers.divide_register)
      = some 0 := by
  refine ⟨by decide, by decide, by decide⟩

/-- C2 (amended): writing any value to 0xFF04 does not change the divider
register immediately — it only sets the pending-reset flag (divider register
and sub-dot accumulator untouched); after all dots of any subsequent
`step_dots` call, the flag is cleared and the divider REGISTER is reset to 0
(the sub-dot accumulator is not reset). -/
theorem C2_divider_deferred_reset_amended (m : Machine) (v n : Nat) :
    ∃ m', m.write_u8 0xFF04 v = some m'
      ∧ m'.cpu.timers.divide_register_to_be_reset = true
      ∧ m'.cpu.timers.divide_register = m.cpu.timers.divide_register
      ∧ m'.cpu.timers.divide_register_dots = m.cpu.timers.divide_register_dots
      ∧ (Timers.step_dots m' n).cpu.timers.divide_register = 0
      ∧ (Timers.step_dots m' n).cpu.timers.divide_register_to_be_reset = false := by
  refine ⟨_, write_u8_ff04 m v, rfl, rfl, rfl, ?_, ?_⟩
  · simp only [Timers.step_dots]
    rw [stepLoop_to_be_reset]
    simp [Machine.setTimers]
  · simp only [Timers.step_dots]
    rw [stepLoop_to_be_reset]
    simp [Machine.setTimers]

/-- `get_timer_counter_threshold` written directly over the control register
value (unfolding of the machine-level definition). -/
lemma get_timer_counter_threshold_eq (m : Machine) :
    get_timer_counter_threshold m =
      (match m.cpu.timers.timer_control &&& 3 with
       | 0 => 1024
       | 1 => 16
       | 2 => 64
       | _ => 256) := rfl

/-- The threshold depends on the machine only through the control register. -/
lemma get_timer_counter_threshold_congr (m' m : Machine)
    (h : m'.cpu.timers.timer_control = m.cpu.timers.timer_control) :
    get_timer_counter_threshold m' = get_timer_counter_threshold m := by
  unfold get_timer_counter_threshold
  rw [h]

/-- The threshold is always one of 1024, 16, 64, 256. -/
lemma get_timer_counter_threshold_cases (m : Machine) :
    get_timer_counter_threshold m = 1024 ∨ get_timer_counter_threshold m = 16
    ∨ get_timer_counter_threshold m = 64 ∨ get_timer_counter_threshold m = 256 := by
  unfold get_timer_counter_threshold
  split <;> simp

/-- Peeling the LAST dot off the dot loop. -/
lemma stepLoop_succ_right (n : Nat) : ∀ (m : Machine),
    Timers.stepLoop m (n + 1) = Timers.step_one_dot (Timers.stepLoop m n) := by
  induction n with
  | zero => intro m; rfl
  | succ k ih =>
      intro m
      rw [Timers.stepLoop, ih]
      rfl

/-- One enabled dot that does not reach the counter threshold: the counter is
unchanged, its accumulator gains 1, control and modulo are untouched. -/
lemma step_one_dot_counter_no_hit (m : Machine)
    (hen : m.cpu.timers.timer_control &&& 4 ≠ 0)
    (hne : m.cpu.timers.timer_counter_dots + 1 ≠ get_timer_counter_threshold m)
    (hlt : m.cpu.timers.timer_counter_dots + 1 < 65536) :
    (Timers.step_one_dot m).cpu.timers.timer_counter = m.cpu.timers.timer_counter
    ∧ (Timers.step_one_dot m).cpu.timers.timer_counter_dots
        = m.cpu.timers.timer_counter_dots + 1
    ∧ (Timers.step_one_dot m).cpu.timers.timer_control = m.cpu.timers.timer_control
    ∧ (Timers.step_one_dot m).cpu.timers.timer_modulo = m.cpu.timers.timer_modulo := by
  rw [get_timer_counter_threshold_eq] at hne
  simp only [Timers.step_one_dot, Machine.setTimers, Machine.request_interrupt,
    Interrupts.request_interrupt]
  split
  all_goals
    rw [Nat.mod_eq_of_lt hlt, get_timer_counter_threshold_eq]
    dsimp only
    rw [if_neg hne]
    exact ⟨rfl, rfl, rfl, rfl⟩

/-- One enabled dot that reaches the threshold without overflowing the
counter: the counter gains 1 and its accumulator resets to 0. -/
lemma step_one_dot_counter_hit (m : Machine)
    (hen : m.cpu.timers.timer_control &&& 4 ≠ 0)
    (heq : m.cpu.timers.timer_counter_dots + 1 = get_timer_counter_threshold m)
    (hlt : m.cpu.timers.timer_counter_dots + 1 < 65536)
    (hc : m.cpu.timers.timer_counter + 1 < 256) :
    (Timers.step_one_dot m).cpu.timers.timer_counter = m.cpu.timers.timer_counter + 1
    ∧ (Timers.step_one_dot m).cpu.timers.timer_counter_dots = 0 := by
  rw [get_timer_counter_threshold_eq] at heq
  simp only [Timers.step_one_dot, Machine.setTimers, Machine.request_interrupt,
    Interrupts.request_interrupt]
  split
  all_goals
    rw [Nat.mod_eq_of_lt hlt, get_timer_counter_threshold_eq]
    dsimp only
    rw [if_pos heq, Nat.mod_eq_of_lt hc,
        if_neg (by omega : ¬ m.cpu.timers.timer_counter + 1 = 0)]
    exact ⟨rfl, rfl⟩

/-- Stepping `k` enabled dots that stay strictly below the threshold leaves
the counter unchanged and adds `k` to its accumulator. -/
lemma stepLoop_counter_no_hit (k : Nat) : ∀ (m : Machine),
    m.cpu.timers.timer_control &&& 4 ≠ 0 →
    m.cpu.timers.timer_counter_dots + k < get_timer_counter_threshold m →
    (Timers.stepLoop m k).cpu.timers.timer_counter = m.cpu.timers.timer_counter
    ∧ (Timers.stepLoop m k).cpu.timers.timer_counter_dots
        = m.cpu.timers.timer_counter_dots + k
    ∧ (Timers.stepLoop m k).cpu.timers.timer_control = m.cpu.timers.timer_control
    ∧ (Timers.stepLoop m k).cpu.timers.timer_modulo = m.cpu.timers.timer_modulo := by
  induction k with
  | zero => intro m _ _; exact ⟨rfl, rfl, rfl, rfl⟩
  | succ k ih =>
      intro m hen hlt
      have hcas := get_timer_counter_threshold_cases m
      have hT : get_timer_counter_threshold m ≤ 1024 := by
        rcases hcas with h | h | h | h <;> omega
      have hne : m.cpu.timers.timer_counter_dots + 1 ≠ get_timer_counter_threshold m := by
        omega
      have h65 : m.cpu.timers.timer_counter_dots + 1 < 65536 := by omega
      obtain ⟨hc, hd, hctl, hmod⟩ := step_one_dot_counter_no_hit m hen hne h65
      have hen' : (Timers.step_one_dot m).cpu.timers.timer_control &&& 4 ≠ 0 := by
        rw [hctl]; exact hen
      have hlt' : (Timers.step_one_dot m).cpu.timers.timer_counter_dots + k
          < get_timer_counter_threshold (Timers.step_one_dot m) := by
        rw [hd, get_timer_counter_threshold_congr _ m hctl]; omega
      obtain ⟨ihc, ihd, ihctl, ihmod⟩ := ih (Timers.step_one_dot m) hen' hlt'
      rw [Timers.stepLoop]
      refine ⟨by rw [ihc, hc], by rw [ihd, hd]; omega,
              by rw [ihctl, hctl], by rw [ihmod, hmod]⟩

/-- C4: with the counter enabled and its sub-dot accumulator at 0, for each
control low-bits value 00/01/10/11 the threshold is 1024/16/64/256 dots; the
counter register is unchanged after threshold−1 dots and has incremented by
exactly 1 after threshold dots (for a non-overflowing counter value). -/
theorem C4_threshold_selection (m : Machine)
    (hen : m.cpu.timers.timer_control &&& 0b100 ≠ 0)
    (hd : m.cpu.timers.timer_counter_dots = 0)
    (hc : m.cpu.timers.timer_counter < 255) :
    ((m.cpu.timers.timer_control &&& 0b11 = 0b00 → get_timer_counter_threshold m = 1024)
     ∧ (m.cpu.timers.timer_control &&& 0b11 = 0b01 → get_timer_counter_threshold m = 16)
     ∧ (m.cpu.timers.timer_control &&& 0b11 = 0b10 → get_timer_counter_threshold m = 64)
     ∧ (m.cpu.timers.timer_control &&& 0b11 = 0b11 → get_timer_counter_threshold m = 256))
    ∧ (Timers.stepLoop m (get_timer_counter_threshold m - 1)).cpu.timers.timer_counter
        = m.cpu.timers.timer_counter
    ∧ (Timers.stepLoop m (get_timer_counter_threshold m)).cpu.timers.timer_counter
        = m.cpu.timers.timer_counter + 1 := by
  have hcas := get_timer_counter_threshold_cases m
  have hT1 : 1 ≤ get_timer_counter_threshold m := by
    rcases hcas with h | h | h | h <;> omega
  have hT2 : get_timer_counter_threshold m ≤ 1024 := by
    rcases hcas with h | h | h | h <;> omega
  refine ⟨⟨?_, ?_, ?_, ?_⟩, ?_, ?_⟩
  · intro h; rw [get_timer_counter_threshold_eq, h]
  · intro h; rw [get_timer_counter_threshold_eq, h]
  · intro h; rw [get_timer_counter_threshold_eq, h]
  · intro h; rw [get_timer_counter_threshold_eq, h]
  · exact (stepLoop_counter_no_hit (get_timer_counter_threshold m - 1) m hen
      (by omega)).1
  · obtain ⟨kc, kd, kctl, kmod⟩ :=
      stepLoop_counter_no_hit (get_timer_counter_threshold m - 1) m hen (by omega)
    have hsplit : get_timer_counter_threshold m
        = (get_timer_counter_threshold m - 1) + 1 := by omega
    rw [hsplit, stepLoop_succ_right]
    have henM : (Timers.stepLoop m (get_timer_counter_threshold m - 1)).cpu.timers.timer_control
        &&& 4 ≠ 0 := by rw [kctl]; exact hen
    have heqM : (Timers.stepLoop m (get_timer_counter_threshold m - 1)).cpu.timers.timer_counter_dots + 1
        = get_timer_counter_threshold
            (Timers.stepLoop m (get_timer_counter_threshold m - 1)) := by
      rw [kd, hd, get_timer_counter_threshold_congr _ m kctl]; omega
    have hltM : (Timers.stepLoop m (get_timer_counter_threshold m - 1)).cpu.timers.timer_counter_dots + 1
        < 65536 := by rw [kd]; omega
    have hcM : (Timers.stepLoop m (get_timer_counter_threshold m - 1)).cpu.timers.timer_counter + 1
        < 256 := by rw [kc]; omega
    obtain ⟨hitc, _⟩ := step_one_dot_counter_hit _ henM heqM hltM hcM
    rw [hitc, kc]

/-- Witness for C4 at the concrete threshold-16 machine (control = 0b101). -/
theorem C4_threshold_selection_witness :
    thresholdWitnessMachine.cpu.timers.timer_control &&& 0b100 ≠ 0
    ∧ thresholdWitnessMachine.cpu.timers.timer_counter_dots = 0
    ∧ thresholdWitnessMachine.cpu.timers.timer_counter < 255
    ∧ (((thresholdWitnessMachine.cpu.timers.timer_control &&& 0b11 = 0b00
          → get_timer_counter_threshold thresholdWitnessMachine = 1024)
     ∧ (thresholdWitnessMachine.cpu.timers.timer_control &&& 0b11 = 0b01
          → get_timer_counter_threshold thresholdWitnessMachine = 16)
     ∧ (thresholdWitnessMachine.cpu.timers.timer_control &&& 0b11 = 0b10
          → get_timer_counter_threshold thresholdWitnessMachine = 64)
     ∧ (thresholdWitnessMachine.cpu.timers.timer_control &&& 0b11 = 0b11
          → get_timer_counter_threshold thresholdWitnessMachine = 256))
    ∧ (Timers.stepLoop thresholdWitnessMachine
          (get_timer_counter_threshold thresholdWitnessMachine - 1)).cpu.timers.timer_counter
        = thresholdWitnessMachine.cpu.timers.timer_counter
    ∧ (Timers.stepLoop thresholdWitnessMachine
          (get_timer_counter_threshold thresholdWitnessMachine)).cpu.timers.timer_counter
        = thresholdWitnessMachine.cpu.timers.timer_counter + 1) :=
  ⟨by decide, by decide, by decide,
   C4_threshold_selection thresholdWitnessMachine (by decide) (by decide) (by decide)⟩

/-- C7: starting the fetcher in `GetTileDelay` with an empty FIFO (and a
clean row buffer) over any fixed VRAM/tile-map contents, ticking through one
full cycle until `PushRow` succeeds (6 dots of delay/fetch progress plus the
push dot) leaves exactly 8 FIFO entries whose 2-bit color indices combine the
low and high bit-plane bytes of the addressed tile row, and advances the
tile-map column cursor by exactly 1. -/
theorem C7_fetcher_row_production (f : BackgroundOrWindowFetcher) (ppu : PPU)
    (hs : f.state = FetcherState.GetTileDelay)
    (hfifo : f.fifo = [])
    (hbuf : f.tile_row_data = fun _ => 0) :
    (BackgroundOrWindowFetcher.tickN 7 (f, ppu)).1.fifo
        = List.ofFn (fun i : Fin 8 => ⟨bgwExpectedColor f ppu i⟩)
    ∧ (BackgroundOrWindowFetcher.tickN 7 (f, ppu)).1.fifo.length = 8
    ∧ (BackgroundOrWindowFetcher.tickN 7 (f, ppu)).1.vram_tile_column
        = (f.vram_tile_column + 1) % 256 := by
  obtain ⟨st, fifo, rp, tid, vc, trd⟩ := f
  dsimp only at hs hfifo hbuf
  subst hs
  subst hfifo
  subst hbuf
  by_cases hm : utils.is_bit_set ppu.lcd_control LCDC_TILE_DATA_AREA_BIT
  all_goals by_cases hb : utils.is_bit_set ppu.lcd_control LCDC_BACKGROUND_TILE_MAP_AREA_BIT
  all_goals
    simp [BackgroundOrWindowFetcher.tickN, BackgroundOrWindowFetcher.tick, hb, hm,
      Fetcher.read_tile_row, bgwExpectedColor, bgwTileDataPlaneByte,
      bgwFetchedTileId, bgwFetchRowAddress, PPU.get_addressing_mode, PPU.read_ly,
      Nat.zero_or, Nat.shiftLeft_zero, TILE_MAP_HORIZONTAL_TILE_COUNT]

/-- Witness for C7 at the freshly constructed fetcher and PPU. -/
theorem C7_fetcher_row_production_witness :
    BackgroundOrWindowFetcher.new.state = FetcherState.GetTileDelay
    ∧ BackgroundOrWindowFetcher.new.fifo = []
    ∧ BackgroundOrWindowFetcher.new.tile_row_data = (fun _ => 0)
    ∧ ((BackgroundOrWindowFetcher.tickN 7 (BackgroundOrWindowFetcher.new, PPU.new)).1.fifo
        = List.ofFn (fun i : Fin 8 => ⟨bgwExpectedColor BackgroundOrWindowFetcher.new PPU.new i⟩)
    ∧ (BackgroundOrWindowFetcher.tickN 7 (BackgroundOrWindowFetcher.new, PPU.new)).1.fifo.length = 8
    ∧ (BackgroundOrWindowFetcher.tickN 7 (BackgroundOrWindowFetcher.new, PPU.new)).1.vram_tile_column
        = (BackgroundOrWindowFetcher.new.vram_tile_column + 1) % 256) :=
  ⟨rfl, rfl, rfl,
   C7_fetcher_row_production BackgroundOrWindowFetcher.new PPU.new rfl rfl rfl⟩

/-- C8: pixels are pushed only into an empty FIFO, as an atomic batch of 8:
any number of ticks in state `PushRow` with a non-empty FIFO leaves the
fetcher (state, FIFO, column cursor, row buffer) and the PPU unchanged. -/
theorem C8_fifo_backpressure (n : Nat) (f : BackgroundOrWindowFetcher) (ppu : PPU)
    (hs : f.state = FetcherState.PushRow) (hne : f.fifo ≠ []) :
    BackgroundOrWindowFetcher.tickN n (f, ppu) = (f, ppu) := by
  have h1 : BackgroundOrWindowFetcher.tick f ppu = (f, ppu) := by
    obtain ⟨st, fifo, rp, tid, vc, trd⟩ := f
    dsimp only at hs hne
    subst hs
    simp [BackgroundOrWindowFetcher.tick, List.length_eq_zero, hne]
  induction n with
  | zero => rfl
  | succ k ih =>
      simp only [BackgroundOrWindowFetcher.tickN]
      rw [h1]
      exact ih

/-- Witness for C8: a `PushRow` fetcher holding one FIFO entry is unchanged
by 5 ticks. -/
theorem C8_fifo_backpressure_witness :
    ({ BackgroundOrWindowFetcher.new with
        state := FetcherState.PushRow
        fifo := [⟨1⟩] } : BackgroundOrWindowFetcher).state = FetcherState.PushRow
    ∧ ({ BackgroundOrWindowFetcher.new with
        state := FetcherState.PushRow
        fifo := [⟨1⟩] } : BackgroundOrWindowFetcher).fifo ≠ []
    ∧ BackgroundOrWindowFetcher.tickN 5
        ({ BackgroundOrWindowFetcher.new with
            state := FetcherState.PushRow
            fifo := [⟨1⟩] }, PPU.new)
      = ({ BackgroundOrWindowFetcher.new with
            state := FetcherState.PushRow
            fifo := [⟨1⟩] }, PPU.new) :=
  ⟨rfl, by decide,
   C8_fifo_backpressure 5
     { BackgroundOrWindowFetcher.new with
        state := FetcherState.PushRow
        fifo := [⟨1⟩] } PPU.new rfl (by decide)⟩
